import Mathlib

/-!
Verification of the Fabric Code permission decision engine and the
Gemini tool adapters, as a shallow embedding in Lean 4.

The permission subsystem (Pattern Matcher, Rule Store, Session Grant
Table, Call Context Analyzer, Permission Checker) is present in the
repository only through its specification; the shipped source tree here
contains the Gemini adapter layer, documentation and a debug utility.
The permission definitions below are therefore modelled from the spec;
the adapter definitions are translated directly from the TypeScript
sources.
-/

namespace Permission

/-- Modelled from the spec: the ALLOW/DENY/ASK outcome of a permission
decision (spec section 3, "Verdict"). -/
inductive Verdict where
  | allow
  | deny
  | ask
deriving DecidableEq, Repr

/-- Modelled from the spec: read/write/execute categorization of a tool
call (spec section 3, "ToolCallContext"). -/
inductive Classification where
  | read
  | write
  | execute
deriving DecidableEq, Repr

/-- Modelled from the spec: one of default, bypassPermissions, planMode
(spec section 3, "PermissionMode"). -/
inductive PermissionMode where
  | default
  | bypassPermissions
  | planMode
deriving DecidableEq, Repr

/-- Modelled from the spec: the pattern matcher distinguishes path
patterns from command patterns (spec section 4.1). -/
inductive PatternKind where
  | path
  | command
deriving DecidableEq, Repr

/-- Modelled from the spec: tokens of a parsed glob pattern, where
a double star matches across path separators and a single star matches
within one path segment (spec section 4.1). -/
inductive GlobToken where
  | lit (c : Char)
  | star
  | dstar
deriving DecidableEq, Repr

/-- Modelled from the spec: parse a glob pattern into tokens.  A
backslash escapes the next character; a dangling backslash at the end
of the pattern is the malformed case the spec requires to fail closed
(spec section 4.1: malformed patterns simply never match). -/
def parseGlob : List Char → Option (List GlobToken)
  | [] => some []
  | '\\' :: [] => none
  | '\\' :: c :: rest => (parseGlob rest).map (fun ts => GlobToken.lit c :: ts)
  | '*' :: '*' :: rest => (parseGlob rest).map (fun ts => GlobToken.dstar :: ts)
  | '*' :: rest => (parseGlob rest).map (fun ts => GlobToken.star :: ts)
  | c :: rest => (parseGlob rest).map (fun ts => GlobToken.lit c :: ts)

/-- Modelled from the spec: try the continuation on every suffix of the
candidate reachable without crossing a path separator (the single-star
wildcard, spec section 4.1). -/
def starLoop (m : List Char → Bool) : List Char → Bool
  | [] => m []
  | x :: xs => m (x :: xs) || (x != '/' && starLoop m xs)

/-- Modelled from the spec: try the continuation on every suffix of the
candidate, separators included (the double-star wildcard, spec
section 4.1). -/
def dstarLoop (m : List Char → Bool) : List Char → Bool
  | [] => m []
  | x :: xs => m (x :: xs) || dstarLoop m xs

/-- Modelled from the spec: run a parsed glob pattern against a
candidate path.  A single star never crosses a path separator, a
double star may (spec section 4.1). -/
def globMatch : List GlobToken → List Char → Bool
  | [], s => s.isEmpty
  | GlobToken.lit _ :: _, [] => false
  | GlobToken.lit c :: ps, x :: xs => c == x && globMatch ps xs
  | GlobToken.star :: ps, s => starLoop (globMatch ps) s
  | GlobToken.dstar :: ps, s => dstarLoop (globMatch ps) s

/-- Modelled from the spec: whether one character list begins with
another (used for command prefix matching, spec section 4.1). -/
def listStarts : List Char → List Char → Bool
  | [], _ => true
  | _ :: _, [] => false
  | p :: ps, c :: cs => p == c && listStarts ps cs

/-- Modelled from the spec: the successfully parsed forms of a rule
pattern.  The empty pattern is the unscoped tool-wide rule matching any
resource string; a command pattern is an exact command line or, with a
trailing star, a command-line prefix (spec section 4.1). -/
inductive ParsedPattern where
  | universal
  | pathToks (toks : List GlobToken)
  | cmdExact (chars : List Char)
  | cmdWild (pre : List Char)
deriving DecidableEq, Repr

/-- Modelled from the spec: parse a pattern string for a given kind;
`none` is the malformed case (spec section 4.1). -/
def parsePattern (kind : PatternKind) (pattern : String) : Option ParsedPattern :=
  if pattern.isEmpty then some ParsedPattern.universal
  else
    match kind with
    | PatternKind.command =>
        match pattern.toList.getLast? with
        | some '*' => some (ParsedPattern.cmdWild pattern.toList.dropLast)
        | _ => some (ParsedPattern.cmdExact pattern.toList)
    | PatternKind.path => (parseGlob pattern.toList).map ParsedPattern.pathToks

/-- Modelled from the spec: evaluate a parsed pattern on a candidate
resource string (spec section 4.1). -/
def runPattern : ParsedPattern → String → Bool
  | ParsedPattern.universal, _ => true
  | ParsedPattern.pathToks toks, c => globMatch toks c.toList
  | ParsedPattern.cmdExact chars, c => c.toList == chars
  | ParsedPattern.cmdWild pre, c => listStarts pre c.toList

/-- Modelled from the spec: `matches(pattern, candidate, kind)`; a
pattern that cannot be parsed never matches (spec section 4.1). -/
def matchesPattern (kind : PatternKind) (pattern candidate : String) : Bool :=
  match parsePattern kind pattern with
  | none => false
  | some p => runPattern p candidate

/-- Modelled from the spec: a rule is a pattern string scoped to a tool
name; its verdict category is given by which list of the store it sits
in (spec section 3, "Rule"). -/
structure Rule where
  tool : String
  pattern : String
deriving DecidableEq, Repr

/-- Modelled from the spec: (toolName, resourceString, classification)
derived per call (spec section 3, "ToolCallContext"). -/
structure ToolCallContext where
  toolName : String
  resourceString : String
  classification : Classification
deriving DecidableEq, Repr

/-- Modelled from the spec: shell-execution tools match their command
line with command semantics, path-bearing tools with path glob
semantics (spec sections 4.1 and 4.4). -/
def kindOf : Classification → PatternKind
  | Classification.read => PatternKind.path
  | Classification.write => PatternKind.path
  | Classification.execute => PatternKind.command

/-- Modelled from the spec: a rule fires when its tool name equals the
call's tool name and its pattern matches the resource string (spec
sections 4.1 and 4.3). -/
def ruleMatches (ctx : ToolCallContext) (r : Rule) : Bool :=
  r.tool == ctx.toolName &&
    matchesPattern (kindOf ctx.classification) r.pattern ctx.resourceString

/-- Modelled from the spec: the three rule lists of one scope,
partitioned by verdict category (spec section 3, "RuleSet"). -/
structure ScopeRules where
  deny : List Rule
  allow : List Rule
  ask : List Rule
deriving DecidableEq, Repr

/-- Modelled from the spec: persisted rule sets for the three scopes
(spec sections 3 and 4.2). -/
structure RuleStore where
  globalScope : ScopeRules
  projectScope : ScopeRules
  localScope : ScopeRules
deriving DecidableEq, Repr

/-- Modelled from the spec: merged deny view, project-local before
project before global (spec section 4.2). -/
def mergedDeny (s : RuleStore) : List Rule :=
  s.localScope.deny ++ s.projectScope.deny ++ s.globalScope.deny

/-- Modelled from the spec: merged allow view, project-local before
project before global (spec section 4.2). -/
def mergedAllow (s : RuleStore) : List Rule :=
  s.localScope.allow ++ s.projectScope.allow ++ s.globalScope.allow

/-- Modelled from the spec: merged ask view, project-local before
project before global (spec section 4.2). -/
def mergedAsk (s : RuleStore) : List Rule :=
  s.localScope.ask ++ s.projectScope.ask ++ s.globalScope.ask

/-- Modelled from the spec: a session grant is a (tool, exact resource
string) pair marked allow-for-session (spec section 3,
"SessionGrant"). -/
structure SessionGrant where
  tool : String
  resource : String
deriving DecidableEq, Repr

/-- Modelled from the spec: session grant lookup is exact string
equality on (tool, resourceString) (spec sections 4.3 step 6 and 8). -/
def hasSessionGrant (grants : List SessionGrant) (tool resource : String) : Bool :=
  grants.any (fun g => g.tool == tool && g.resource == resource)

/-- Modelled from the spec: the two optional CLI lists of (tool,
pattern) pairs (spec section 3, "CLIOverrides"). -/
structure CLIOverrides where
  allowedTools : List Rule
  disallowedTools : List Rule
deriving DecidableEq, Repr

/-- Modelled from the spec: each tool carries a declared default policy
of auto-allow or ask; a tool with no declared default falls to the
final ASK step (spec section 4.3 steps 9 and 10). -/
inductive ToolDefault where
  | autoAllow
  | askUser
deriving DecidableEq, Repr

/-- Modelled from the spec: whether a read resource path resolves
inside the current working directory tree (spec section 4.3 step 5). -/
def readInTree (cwd resource : String) : Bool :=
  listStarts cwd.toList resource.toList

/-- Modelled from the spec: the ordered decision cascade of the
Permission Checker; the first matching step returns (spec section
4.3, steps 1 through 10). -/
def decide (ctx : ToolCallContext) (mode : PermissionMode) (cli : CLIOverrides)
    (store : RuleStore) (grants : List SessionGrant) (cwd : String)
    (toolDefaults : String → Option ToolDefault) : Verdict :=
  if (mergedDeny store).any (ruleMatches ctx) then Verdict.deny
  else if cli.disallowedTools.any (ruleMatches ctx) then Verdict.deny
  else if mode = PermissionMode.bypassPermissions then Verdict.allow
  else if mode = PermissionMode.planMode ∧ ctx.classification ≠ Classification.read then
    Verdict.deny
  else if cli.allowedTools.any (ruleMatches ctx) then Verdict.allow
  else if ctx.classification = Classification.read ∧ readInTree cwd ctx.resourceString then
    Verdict.allow
  else if hasSessionGrant grants ctx.toolName ctx.resourceString then Verdict.allow
  else if (mergedAllow store).any (ruleMatches ctx) then Verdict.allow
  else if (mergedAsk store).any (ruleMatches ctx) then Verdict.ask
  else
    match toolDefaults ctx.toolName with
    | some ToolDefault.autoAllow => Verdict.allow
    | some ToolDefault.askUser => Verdict.ask
    | none => Verdict.ask

/-- Modelled from the spec: a snapshot of the mutable engine state the
Checker reads (spec section 3, "Ownership"). -/
structure EngineSnapshot where
  store : RuleStore
  grants : List SessionGrant

/-- Modelled from the spec: evaluation as a state-passing step; the
Checker performs no mutation during evaluation, so the snapshot is
returned unchanged alongside the verdict (spec section 4.3, "Side
effects: none during evaluation"). -/
def decideSnap (ctx : ToolCallContext) (mode : PermissionMode) (cli : CLIOverrides)
    (snap : EngineSnapshot) (cwd : String)
    (toolDefaults : String → Option ToolDefault) : Verdict × EngineSnapshot :=
  (decide ctx mode cli snap.store snap.grants cwd toolDefaults, snap)

end Permission

/-- Return shape of every Gemini adapter: `{ message: string }`. -/
structure ToolMessage where
  message : String
deriving DecidableEq, Repr

/-- Arguments of the Gemini `read_file` tool
(src/tools/impl/ReadFileGemini.ts, `ReadFileGeminiArgs`). -/
structure ReadFileGeminiArgs where
  file_path : String
  offset : Option Int
  limit : Option Int
deriving DecidableEq, Repr

/-- Arguments of Fabric Code's `Read` tool as built by the adapter
(src/tools/impl/ReadFileGemini.ts, `fabricArgs`). -/
structure ReadArgs where
  file_path : String
  offset : Option Int
  limit : Option Int
deriving DecidableEq, Repr

/-- Result of Fabric Code's `Read` tool: `{ content: string }`
(src/tools/impl/ReadFileGemini.ts). -/
structure ReadResult where
  content : String
deriving DecidableEq, Repr

/-- The argument adaptation of `read_file_gemini`: same `file_path` and
`limit`; Gemini's 0-based `offset` becomes Fabric Code's 1-based one by
adding 1 when present (src/tools/impl/ReadFileGemini.ts). -/
def geminiToReadArgs (args : ReadFileGeminiArgs) : ReadArgs :=
  { file_path := args.file_path,
    offset := match args.offset with
      | some n => some (n + 1)
      | none => none,
    limit := args.limit }

/-- The Gemini `read_file` adapter, parametric in the underlying `read`
tool it wraps (src/tools/impl/ReadFileGemini.ts). -/
def read_file_gemini (rd : ReadArgs → ReadResult) (args : ReadFileGeminiArgs) : ToolMessage :=
  { message := (rd (geminiToReadArgs args)).content }

/-- Arguments of the Gemini `replace` tool
(src/tools/impl for the Edit wrapper, `ReplaceGeminiArgs`). -/
structure ReplaceGeminiArgs where
  file_path : String
  old_string : String
  new_string : String
  expected_replacements : Option Int
deriving DecidableEq, Repr

/-- Arguments of Fabric Code's `Edit` tool as built by the adapter. -/
structure EditArgs where
  file_path : String
  old_string : String
  new_string : String
  replace_all : Bool
deriving DecidableEq, Repr

/-- Result of Fabric Code's `Edit` tool:
`{ message: string, replacements: number }`. -/
structure EditResult where
  message : String
  replacements : Int
deriving DecidableEq, Repr

/-- JavaScript truthiness of
`!!(args.expected_replacements && args.expected_replacements > 1)` for
an optional integer-valued number: an absent value and the falsy 0
yield `false`; otherwise the comparison with 1 decides. -/
def replaceAllFlag : Option Int → Bool
  | none => false
  | some n => if n = 0 then false else decide (1 < n)

/-- The argument adaptation of `replace`: `file_path`, `old_string` and
`new_string` pass through; `replace_all` is the truthiness of
`expected_replacements && expected_replacements > 1`. -/
def geminiToEditArgs (args : ReplaceGeminiArgs) : EditArgs :=
  { file_path := args.file_path,
    old_string := args.old_string,
    new_string := args.new_string,
    replace_all := replaceAllFlag args.expected_replacements }

/-- The Gemini `replace` adapter, parametric in the underlying `edit`
tool it wraps. -/
def replace (ed : EditArgs → EditResult) (args : ReplaceGeminiArgs) : ToolMessage :=
  { message := (ed (geminiToEditArgs args)).message }

/-- Arguments of the Gemini `glob` tool (`GlobGeminiArgs`). -/
structure GlobGeminiArgs where
  pattern : String
  dir_path : Option String
  case_sensitive : Option Bool
  respect_git_ignore : Option Bool
  respect_gemini_ignore : Option Bool
deriving DecidableEq, Repr

/-- Arguments of Fabric Code's `Glob` tool as built by the adapter. -/
structure GlobArgs where
  pattern : String
  path : Option String
deriving DecidableEq, Repr

/-- Result of Fabric Code's `Glob` tool:
`{ files: string[], truncated?, totalFiles? }`. -/
structure GlobResult where
  files : List String
  truncated : Option Bool
  totalFiles : Option Int
deriving DecidableEq, Repr

/-- The Gemini `glob` adapter, parametric in the underlying Fabric
`glob` tool: forwards only `pattern` and `dir_path`, joins the
resulting file list with newlines. -/
def glob_gemini (fabricGlob : GlobArgs → GlobResult) (args : GlobGeminiArgs) : ToolMessage :=
  { message :=
      String.intercalate "\n" (fabricGlob { pattern := args.pattern, path := args.dir_path }).files }

/-- Arguments of the Gemini `run_shell_command` tool
(src/tools/impl/RunShellCommandGemini.ts, `RunShellCommandGeminiArgs`). -/
structure RunShellCommandGeminiArgs where
  command : String
  description : Option String
  dir_path : Option String
deriving DecidableEq, Repr

/-- Arguments of Fabric Code's `Bash` tool as built by the adapter
(src/tools/impl/RunShellCommandGemini.ts, `fabricArgs`). -/
structure BashArgs where
  command : String
  description : Option String
deriving DecidableEq, Repr

/-- One item of the Bash result content array:
`{ type: string, text: string }`. -/
structure BashContentItem where
  type : String
  text : String
deriving DecidableEq, Repr

/-- Result of Fabric Code's `Bash` tool:
`{ content: Array<{type, text}>, status: string }`. -/
structure BashResult where
  content : List BashContentItem
  status : String
deriving DecidableEq, Repr

/-- The Gemini `run_shell_command` adapter, parametric in the
underlying Fabric `bash` tool: forwards only `command` and
`description`, joins the text of the content items with newlines
(src/tools/impl/RunShellCommandGemini.ts). -/
def run_shell_command (bash : BashArgs → BashResult) (args : RunShellCommandGeminiArgs) : ToolMessage :=
  { message :=
      String.intercalate "\n"
        ((bash { command := args.command, description := args.description }).content.map
          (fun item => item.text)) }

open Permission

/-- Claim C1: for every tool call whose (tool, resourceString) matches
any deny rule merged across all scopes, `decide` returns DENY,
regardless of the permission mode (including bypassPermissions), CLI
overrides, or session grants. -/
theorem deny_dominance (ctx : ToolCallContext) (mode : PermissionMode)
    (cli : CLIOverrides) (store : RuleStore) (grants : List SessionGrant)
    (cwd : String) (toolDefaults : String → Option ToolDefault)
    (h : (mergedDeny store).any (ruleMatches ctx) = true) :
    Permission.decide ctx mode cli store grants cwd toolDefaults = Verdict.deny := by
  unfold Permission.decide
  simp [h]

/-- Witness for C1: a deny rule `Bash(rm -rf*)` in project scope denies
`rm -rf /` even under bypassPermissions, with the tool CLI-allowed, a
matching exact session grant, and an auto-allow tool default. -/
theorem deny_dominance_witness :
    Permission.decide ⟨"Bash", "rm -rf /", Classification.execute⟩
      PermissionMode.bypassPermissions
      ⟨[⟨"Bash", "rm -rf*"⟩], []⟩
      ⟨⟨[], [], []⟩, ⟨[⟨"Bash", "rm -rf*"⟩], [], []⟩, ⟨[], [], []⟩⟩
      [⟨"Bash", "rm -rf /"⟩] "/" (fun _ => some ToolDefault.autoAllow)
      = Verdict.deny :=
  deny_dominance _ _ _ _ _ _ _ (by decide)

/-- Claim C2: the pattern matcher is a total function, and for every
pattern string that fails to parse (the malformed case) and every
candidate, `matchesPattern` returns false, so a malformed rule never
fires and never produces ALLOW. -/
theorem malformed_never_matches (kind : PatternKind) (pattern candidate : String)
    (h : parsePattern kind pattern = none) :
    matchesPattern kind pattern candidate = false := by
  unfold matchesPattern
  rw [h]

/-- Witness for C2: the pattern "a\\" (dangling escape) is malformed
and matches nothing. -/
theorem malformed_never_matches_witness :
    parsePattern PatternKind.path "a\\" = none ∧
    matchesPattern PatternKind.path "a\\" "a" = false :=
  ⟨by decide, malformed_never_matches PatternKind.path "a\\" "a" (by decide)⟩

/-- Claim C3: for every tool call for which no step of the decision
cascade fires (no deny/allow/ask rule matches, no CLI override, no
session grant, no applicable mode or tool default), `decide` returns
ASK, never ALLOW. -/
theorem unmatched_defaults_to_ask (ctx : ToolCallContext) (mode : PermissionMode)
    (cli : CLIOverrides) (store : RuleStore) (grants : List SessionGrant)
    (cwd : String) (toolDefaults : String → Option ToolDefault)
    (h1 : (mergedDeny store).any (ruleMatches ctx) = false)
    (h2 : cli.disallowedTools.any (ruleMatches ctx) = false)
    (h3 : mode = PermissionMode.default ∨
      (mode = PermissionMode.planMode ∧ ctx.classification = Classification.read))
    (h4 : cli.allowedTools.any (ruleMatches ctx) = false)
    (h5 : ¬ (ctx.classification = Classification.read ∧
      readInTree cwd ctx.resourceString = true))
    (h6 : hasSessionGrant grants ctx.toolName ctx.resourceString = false)
    (h7 : (mergedAllow store).any (ruleMatches ctx) = false)
    (h8 : (mergedAsk store).any (ruleMatches ctx) = false)
    (h9 : toolDefaults ctx.toolName = none) :
    Permission.decide ctx mode cli store grants cwd toolDefaults = Verdict.ask := by
  unfold Permission.decide
  rcases h3 with h3 | ⟨h3, hr⟩
  · subst h3
    simp [h1, h2, h4, h5, h6, h7, h8, h9]
  · subst h3
    have h5x : readInTree cwd ctx.resourceString = false := by
      cases hh : readInTree cwd ctx.resourceString
      · rfl
      · exact absurd ⟨hr, hh⟩ h5
    simp [h1, h2, h4, h5x, h6, h7, h8, h9, hr]

/-- Witness for C3: an unknown tool, empty rule store, no overrides, no
grants and no tool default gets verdict ASK. -/
theorem unmatched_defaults_to_ask_witness :
    Permission.decide ⟨"UnknownTool", "x", Classification.execute⟩
      PermissionMode.default ⟨[], []⟩
      ⟨⟨[], [], []⟩, ⟨[], [], []⟩, ⟨[], [], []⟩⟩ [] "/home"
      (fun _ => none) = Verdict.ask :=
  unmatched_defaults_to_ask _ _ _ _ _ _ _ (by decide) (by decide)
    (Or.inl rfl) (by decide) (by decide) (by decide) (by decide) (by decide) rfl

/-- Claim C4: under planMode, every call classified write or execute
that matches no deny rule or CLI disallowedTools entry is denied, while
for a call classified read the planMode step does not decide:
evaluation proceeds exactly as it would in default mode. -/
theorem plan_mode_blocks_writes_not_reads :
    (∀ (ctx : ToolCallContext) (cli : CLIOverrides) (store : RuleStore)
      (grants : List SessionGrant) (cwd : String)
      (toolDefaults : String → Option ToolDefault),
      (mergedDeny store).any (ruleMatches ctx) = false →
      cli.disallowedTools.any (ruleMatches ctx) = false →
      (ctx.classification = Classification.write ∨
        ctx.classification = Classification.execute) →
      Permission.decide ctx PermissionMode.planMode cli store grants cwd toolDefaults =
        Verdict.deny) ∧
    (∀ (ctx : ToolCallContext) (cli : CLIOverrides) (store : RuleStore)
      (grants : List SessionGrant) (cwd : String)
      (toolDefaults : String → Option ToolDefault),
      ctx.classification = Classification.read →
      Permission.decide ctx PermissionMode.planMode cli store grants cwd toolDefaults =
        Permission.decide ctx PermissionMode.default cli store grants cwd toolDefaults) := by
  constructor
  · intro ctx cli store grants cwd toolDefaults h1 h2 hcl
    unfold Permission.decide
    rcases hcl with hcl | hcl <;> simp [h1, h2, hcl]
  · intro ctx cli store grants cwd toolDefaults hr
    unfold Permission.decide
    simp [hr]

/-- Witness for C4: under planMode, writing /tmp/x is denied with an
empty store, and reading /tmp/x is decided exactly as in default
mode. -/
theorem plan_mode_blocks_writes_not_reads_witness :
    Permission.decide ⟨"Write", "/tmp/x", Classification.write⟩
      PermissionMode.planMode ⟨[], []⟩
      ⟨⟨[], [], []⟩, ⟨[], [], []⟩, ⟨[], [], []⟩⟩ [] "/tmp"
      (fun _ => none) = Verdict.deny ∧
    Permission.decide ⟨"Read", "/tmp/x", Classification.read⟩
      PermissionMode.planMode ⟨[], []⟩
      ⟨⟨[], [], []⟩, ⟨[], [], []⟩, ⟨[], [], []⟩⟩ [] "/tmp"
      (fun _ => none) =
      Permission.decide ⟨"Read", "/tmp/x", Classification.read⟩
        PermissionMode.default ⟨[], []⟩
        ⟨⟨[], [], []⟩, ⟨[], [], []⟩, ⟨[], [], []⟩⟩ [] "/tmp"
        (fun _ => none) :=
  ⟨plan_mode_blocks_writes_not_reads.1 _ _ _ _ _ _ (by decide) (by decide) (Or.inl rfl),
   plan_mode_blocks_writes_not_reads.2 _ _ _ _ _ _ rfl⟩

/-- Claim C5: under bypassPermissions, every tool call that matches no
deny rule and no CLI disallowedTools entry is allowed, skipping all
remaining steps of the cascade. -/
theorem bypass_allows_all_but_deny (ctx : ToolCallContext) (cli : CLIOverrides)
    (store : RuleStore) (grants : List SessionGrant) (cwd : String)
    (toolDefaults : String → Option ToolDefault)
    (h1 : (mergedDeny store).any (ruleMatches ctx) = false)
    (h2 : cli.disallowedTools.any (ruleMatches ctx) = false) :
    Permission.decide ctx PermissionMode.bypassPermissions cli store grants cwd toolDefaults =
      Verdict.allow := by
  unfold Permission.decide
  simp [h1, h2]

/-- Witness for C5: under bypassPermissions with a deny rule
`Bash(rm -rf*)`, the call `npm test` is allowed. -/
theorem bypass_allows_all_but_deny_witness :
    Permission.decide ⟨"Bash", "npm test", Classification.execute⟩
      PermissionMode.bypassPermissions ⟨[], []⟩
      ⟨⟨[], [], []⟩, ⟨[⟨"Bash", "rm -rf*"⟩], [], []⟩, ⟨[], [], []⟩⟩ [] "/"
      (fun _ => none) = Verdict.allow :=
  bypass_allows_all_but_deny _ _ _ _ _ _ (by decide) (by decide)

/-- Claim C6: session-grant lookup is exact string equality on
(tool, resourceString): a lookup succeeds exactly when the table holds
a grant with that tool and that exact resource string; in particular a
grant for (Bash, "npm test") matches "npm test" and does not match
"npm test --watch". -/
theorem session_grant_exact (grants : List SessionGrant) (tool resource : String) :
    (hasSessionGrant grants tool resource = true ↔
      ∃ g ∈ grants, g.tool = tool ∧ g.resource = resource) ∧
    hasSessionGrant [⟨"Bash", "npm test"⟩] "Bash" "npm test" = true ∧
    hasSessionGrant [⟨"Bash", "npm test"⟩] "Bash" "npm test --watch" = false := by
  refine ⟨?_, by decide, by decide⟩
  simp [hasSessionGrant, List.any_eq_true, Bool.and_eq_true, beq_iff_eq]

/-- Claim C7: the Checker is pure and deterministic: evaluation as a
state-passing step returns the engine snapshot (rule store and session
grant table) unchanged, and two evaluations on equal inputs return
equal verdicts. -/
theorem checker_pure (ctx : ToolCallContext) (mode : PermissionMode)
    (cli : CLIOverrides) (snap : EngineSnapshot) (cwd : String)
    (toolDefaults : String → Option ToolDefault) :
    (decideSnap ctx mode cli snap cwd toolDefaults).2 = snap ∧
    ∀ (ctx' : ToolCallContext) (mode' : PermissionMode) (cli' : CLIOverrides)
      (snap' : EngineSnapshot) (cwd' : String)
      (toolDefaults' : String → Option ToolDefault),
      ctx = ctx' → mode = mode' → cli = cli' → snap = snap' → cwd = cwd' →
      toolDefaults = toolDefaults' →
      (decideSnap ctx mode cli snap cwd toolDefaults).1 =
        (decideSnap ctx' mode' cli' snap' cwd' toolDefaults').1 := by
  refine ⟨rfl, ?_⟩
  intro ctx' mode' cli' snap' cwd' toolDefaults' e1 e2 e3 e4 e5 e6
  subst e1; subst e2; subst e3; subst e4; subst e5; subst e6
  rfl

/-- Witness for C7: a concrete evaluation leaves a concrete snapshot
unchanged and repeats to the same verdict. -/
theorem checker_pure_witness :
    (decideSnap ⟨"Read", "/a", Classification.read⟩ PermissionMode.default
      ⟨[], []⟩ ⟨⟨⟨[], [], []⟩, ⟨[], [], []⟩, ⟨[], [], []⟩⟩, [⟨"Bash", "npm test"⟩]⟩
      "/" (fun _ => none)).2 =
      ⟨⟨⟨[], [], []⟩, ⟨[], [], []⟩, ⟨[], [], []⟩⟩, [⟨"Bash", "npm test"⟩]⟩ ∧
    (decideSnap ⟨"Read", "/a", Classification.read⟩ PermissionMode.default
      ⟨[], []⟩ ⟨⟨⟨[], [], []⟩, ⟨[], [], []⟩, ⟨[], [], []⟩⟩, [⟨"Bash", "npm test"⟩]⟩
      "/" (fun _ => none)).1 =
      (decideSnap ⟨"Read", "/a", Classification.read⟩ PermissionMode.default
        ⟨[], []⟩ ⟨⟨⟨[], [], []⟩, ⟨[], [], []⟩, ⟨[], [], []⟩⟩, [⟨"Bash", "npm test"⟩]⟩
        "/" (fun _ => none)).1 :=
  ⟨(checker_pure _ _ _ _ _ _).1,
   (checker_pure _ _ _ _ _ _).2 _ _ _ _ _ _ rfl rfl rfl rfl rfl rfl⟩

/-- Claim C8: `read_file_gemini` calls `read` with the same file_path
and limit, with offset incremented by one when present and absent when
absent, and returns the content field of the result as its message. -/
theorem read_file_gemini_forwards (rd : ReadArgs → ReadResult) (args : ReadFileGeminiArgs) :
    read_file_gemini rd args = ⟨(rd (geminiToReadArgs args)).content⟩ ∧
    (geminiToReadArgs args).file_path = args.file_path ∧
    (geminiToReadArgs args).limit = args.limit ∧
    (∀ n : Int, args.offset = some n → (geminiToReadArgs args).offset = some (n + 1)) ∧
    (args.offset = none → (geminiToReadArgs args).offset = none) := by
  refine ⟨rfl, rfl, rfl, ?_, ?_⟩
  · intro n hn
    simp [geminiToReadArgs, hn]
  · intro hn
    simp [geminiToReadArgs, hn]

/-- Witness for C8: a present 0-based offset 5 becomes the 1-based 6; an
absent offset stays absent. -/
theorem read_file_gemini_forwards_witness :
    (geminiToReadArgs ⟨"/a", some 5, some 10⟩).offset = some 6 ∧
    (geminiToReadArgs ⟨"/a", none, none⟩).offset = none :=
  ⟨(read_file_gemini_forwards (fun a => ⟨a.file_path⟩) ⟨"/a", some 5, some 10⟩).2.2.2.1 5 rfl,
   (read_file_gemini_forwards (fun a => ⟨a.file_path⟩) ⟨"/a", none, none⟩).2.2.2.2 rfl⟩

/-- Claim C9: `replace` calls `edit` with replace_all true exactly when
expected_replacements is provided and strictly greater than 1; in
particular 1, 0 and absent all give false; file_path, old_string and
new_string pass through unchanged, and the message field of the result
is returned. -/
theorem replace_forwards (ed : EditArgs → EditResult) (args : ReplaceGeminiArgs) :
    replace ed args = ⟨(ed (geminiToEditArgs args)).message⟩ ∧
    (geminiToEditArgs args).file_path = args.file_path ∧
    (geminiToEditArgs args).old_string = args.old_string ∧
    (geminiToEditArgs args).new_string = args.new_string ∧
    ((geminiToEditArgs args).replace_all = true ↔
      ∃ n : Int, args.expected_replacements = some n ∧ 1 < n) ∧
    replaceAllFlag (some 1) = false ∧
    replaceAllFlag (some 0) = false ∧
    replaceAllFlag none = false := by
  refine ⟨rfl, rfl, rfl, rfl, ?_, by decide, by decide, rfl⟩
  cases h : args.expected_replacements with
  | none => simp [geminiToEditArgs, replaceAllFlag, h]
  | some n =>
      by_cases hz : n = 0
      · subst hz
        simp [geminiToEditArgs, replaceAllFlag, h]
      · simp [geminiToEditArgs, replaceAllFlag, h, hz]

/-- Claim C10: each Gemini adapter's result is independent of the
arguments it does not forward: `glob_gemini` ignores case_sensitive,
respect_git_ignore and respect_gemini_ignore, and `run_shell_command`
ignores dir_path. -/
theorem gemini_adapters_ignore_unforwarded :
    (∀ (g : GlobArgs → GlobResult) (a1 a2 : GlobGeminiArgs),
      a1.pattern = a2.pattern → a1.dir_path = a2.dir_path →
      glob_gemini g a1 = glob_gemini g a2) ∧
    (∀ (b : BashArgs → BashResult) (a1 a2 : RunShellCommandGeminiArgs),
      a1.command = a2.command → a1.description = a2.description →
      run_shell_command b a1 = run_shell_command b a2) := by
  constructor
  · intro g a1 a2 h1 h2
    simp [glob_gemini, h1, h2]
  · intro b a1 a2 h1 h2
    simp [run_shell_command, h1, h2]

/-- Witness for C10: flipping the ignore/case flags of `glob_gemini`
and the dir_path of `run_shell_command` leaves the messages
unchanged. -/
theorem gemini_adapters_ignore_unforwarded_witness :
    glob_gemini (fun a => ⟨[a.pattern], none, none⟩)
        ⟨"*.ts", some "/src", some true, some false, none⟩ =
      glob_gemini (fun a => ⟨[a.pattern], none, none⟩)
        ⟨"*.ts", some "/src", none, some true, some false⟩ ∧
    run_shell_command (fun a => ⟨[⟨"text", a.command⟩], "ok"⟩) ⟨"ls", none, some "/x"⟩ =
      run_shell_command (fun a => ⟨[⟨"text", a.command⟩], "ok"⟩) ⟨"ls", none, none⟩ :=
  ⟨gemini_adapters_ignore_unforwarded.1 _ _ _ rfl rfl,
   gemini_adapters_ignore_unforwarded.2 _ _ _ rfl rfl⟩
